import Mathlib

/-!
Verification of the conversation-context and persona-state subsystem of the
`qwen-ai-chat` plugin (a Koishi chat-bot plugin).

The development shallowly embeds the relevant TypeScript classes:

* `ConversationManager`   (src/services/conversation-manager.ts)
* `GroupSessionManager`   (group session source file)
* `PersonaManager`        (src/services/persona-manager.ts)
* `CacheManager`          (src/cache.ts)

Conventions of the embedding:

* JS strings are modelled as `List Char` where character-level processing
  matters (the token estimator); everywhere else `String` is used.  All
  characters appearing in the development are in the Basic Multilingual
  Plane, where JS UTF-16 code units coincide with code points.
* `Date.now()` is an explicit `now : Nat` parameter threaded through every
  operation that reads the clock.
* A JS `Map` is an association list in insertion order; `Map.set` on an
  existing key updates the value in place (keeping the original position),
  matching JS `Map` iteration semantics.  A JS `Set` of strings is a
  duplicate-free list in insertion order.
* The JS idiom `x || d` on numbers (resp. strings) is `natOr` (resp.
  `strOr`): `0`/`undefined` (resp. `""`/`undefined`) select the default.
  A missing optional numeric field (`undefined`) is encoded as `0`, which
  is treated identically by `||`.
* Fractional token weights are computed exactly in tenths:
  `Math.ceil(a)` for `a` a multiple of `1/10` is `(10 * a + 9) / 10`
  in natural-number division, proved equal to the rational ceiling below.
-/

/-- `x || d` for JS numbers: `0` (or an absent field, encoded as `0`) is falsy. -/
def natOr (x d : Nat) : Nat := if x = 0 then d else x

/-- `s || d` for JS strings: the empty string (or an absent field) is falsy. -/
def strOr (s d : String) : String := if s = "" then d else s

/-- Membership test of the regex class `[一-龥]` (conversation-manager.ts:170). -/
def isCJK (c : Char) : Bool := 0x4e00 ≤ c.toNat && c.toNat ≤ 0x9fa5

/-- Membership test of the regex class `[a-zA-Z]` (conversation-manager.ts:172). -/
def isWordChar (c : Char) : Bool :=
  (97 ≤ c.toNat && c.toNat ≤ 122) || (65 ≤ c.toNat && c.toNat ≤ 90)

/-- Number of matches of the global regex `[a-zA-Z]+`: the number of maximal
runs of word characters.  The Boolean argument records whether the previous
character was a word character (initially `false`). -/
def countWordRuns : List Char → Bool → Nat
  | [], _ => 0
  | c :: rest, prev =>
    (if isWordChar c && !prev then 1 else 0) + countWordRuns rest (isWordChar c)

/-- `(text.match(/[一-龥]/g) || []).length` — count of CJK characters. -/
def cjkCount (text : List Char) : Nat := text.countP isCJK

/-- `(text.match(/[a-zA-Z]+/g) || []).length` — count of word *runs*, not characters. -/
def wordRunCount (text : List Char) : Nat := countWordRuns text false

/-- `text.length - chineseChars - englishWords` (conversation-manager.ts:174).
Note that the *run count*, not the word-character count, is subtracted. -/
def otherCount (text : List Char) : Nat :=
  text.length - cjkCount text - wordRunCount text

/-- `ConversationManager.estimateTokens` (conversation-manager.ts:168-177),
identical to `GroupSessionManager.estimateTokens`:
`Math.ceil(chineseChars * 2 + englishWords * 1.3 + otherChars * 0.5)`,
computed exactly in tenths. -/
def estimateTokens (text : List Char) : Nat :=
  (20 * cjkCount text + 13 * wordRunCount text + 5 * otherCount text + 9) / 10

/-- Natural-number rounding-up division by ten agrees with the rational ceiling. -/
theorem ceil_div_ten (x : Nat) : ⌈(x : ℚ) / 10⌉ = ((x + 9) / 10 : Nat) := by
  have hneg : -((x : ℚ) / 10) = ((-(x : ℤ) : ℤ) : ℚ) / ((10 : ℕ) : ℚ) := by
    push_cast
    ring
  have hfl : ⌊-((x : ℚ) / 10)⌋ = -(x : ℤ) / ((10 : ℕ) : ℤ) := by
    rw [hneg]
    exact Rat.floor_intCast_div_natCast (-(x : ℤ)) 10
  rw [Int.floor_neg] at hfl
  omega

/-- A CJK ideograph is never a `[a-zA-Z]` word character. -/
theorem isCJK_not_wordChar (c : Char) (h : isCJK c = true) : isWordChar c = false := by
  simp only [isCJK, Bool.and_eq_true, decide_eq_true_eq] at h
  simp only [isWordChar, Bool.or_eq_false_iff, Bool.and_eq_false_iff,
    decide_eq_false_iff_not, not_le]
  omega

/-- A text with no word characters has no word runs. -/
theorem countWordRuns_eq_zero (text : List Char)
    (h : ∀ c ∈ text, isWordChar c = false) :
    ∀ prev, countWordRuns text prev = 0 := by
  induction text with
  | nil => intro prev; rfl
  | cons c rest ih =>
    intro prev
    have hc : isWordChar c = false := h c (List.mem_cons_self c rest)
    simp only [countWordRuns, hc, Bool.false_and, if_false]
    simpa using ih (fun d hd => h d (List.mem_cons_of_mem c hd)) false

/-- C2 (amended): `estimateTokens` computes
`ceil(2·cjk + 1.3·wordRuns + 0.5·(length − cjk − wordRuns))`.  The count
subtracted to obtain the "remaining" characters is the number of matched
word runs, not the number of characters belonging to word runs, so the
characters of a word run beyond the accounting of the single `1.3` weight
still contribute `0.5` each.  In particular `estimate("") = 0`, a string of
`n` CJK characters yields `2n`, and `estimate("你好hello") = 8`. -/
theorem estimateTokens_ceil_formula :
    (∀ text : List Char,
      (estimateTokens text : ℤ) =
        ⌈(2 * (cjkCount text : ℚ) + 13 / 10 * (wordRunCount text : ℚ)
            + 1 / 2 * (otherCount text : ℚ))⌉)
    ∧ estimateTokens [] = 0
    ∧ (∀ text : List Char, (∀ c ∈ text, isCJK c = true) →
        estimateTokens text = 2 * text.length)
    ∧ estimateTokens (String.data "你好hello") = 8 := by
  refine ⟨?_, rfl, ?_, by decide⟩
  · intro text
    have h : (2 * (cjkCount text : ℚ) + 13 / 10 * (wordRunCount text : ℚ)
          + 1 / 2 * (otherCount text : ℚ))
        = ((20 * cjkCount text + 13 * wordRunCount text
            + 5 * otherCount text : ℕ) : ℚ) / 10 := by
      push_cast
      ring
    rw [h, ceil_div_ten]
    rfl
  · intro text hall
    have hc : cjkCount text = text.length := by
      simpa [cjkCount] using List.countP_eq_length.2 hall
    have hw : wordRunCount text = 0 :=
      countWordRuns_eq_zero text
        (fun c hmem => isCJK_not_wordChar c (hall c hmem)) false
    simp only [estimateTokens, otherCount, hc, hw]
    omega

/-- C2 witness: the CJK clause of `estimateTokens_ceil_formula` instantiated at
the three-ideograph string `"你好你"`, whose estimate is `2 × 3`. -/
theorem estimateTokens_ceil_formula_witness :
    estimateTokens (String.data "你好你") = 2 * (String.data "你好你").length :=
  estimateTokens_ceil_formula.2.2.1 (String.data "你好你") (by decide)

/-- C2 counterexample: the claim asserts `estimate("你好hello") = 6`, but the
code counts the four word-run characters left over after subtracting the run
count toward the `0.5` weight, yielding `ceil(4 + 1.3 + 2) = 8`. -/
theorem estimateTokens_mixed_example_is_eight :
    estimateTokens (String.data "你好hello") = 8
    ∧ ¬ estimateTokens (String.data "你好hello") = 6 := by
  decide

/-- JS `Map.get`: the value of the (unique) entry with the given key. -/
def mapGet {α : Type} : List (String × α) → String → Option α
  | [], _ => none
  | p :: rest, k => if p.1 = k then some p.2 else mapGet rest k

/-- JS `Map.set`: update the entry in place if the key is present (keeping its
position in iteration order), otherwise append a new entry. -/
def mapSet {α : Type} : List (String × α) → String → α → List (String × α)
  | [], k, v => [(k, v)]
  | p :: rest, k, v => if p.1 = k then (k, v) :: rest else p :: mapSet rest k v

/-- JS `Map.delete`: remove the entry with the given key. -/
def mapDelete {α : Type} : List (String × α) → String → List (String × α)
  | [], _ => []
  | p :: rest, k => if p.1 = k then mapDelete rest k else p :: mapDelete rest k

theorem mapGet_mapSet_self {α : Type} (m : List (String × α)) (k : String) (v : α) :
    mapGet (mapSet m k v) k = some v := by
  induction m with
  | nil => simp [mapGet, mapSet]
  | cons p rest ih =>
    by_cases h : p.1 = k
    · simp [mapGet, mapSet, h]
    · simp [mapGet, mapSet, h, ih]

theorem mapGet_mapDelete_self {α : Type} (m : List (String × α)) (k : String) :
    mapGet (mapDelete m k) k = none := by
  induction m with
  | nil => rfl
  | cons p rest ih =>
    by_cases h : p.1 = k
    · simp [mapDelete, h, ih]
    · simp [mapDelete, mapGet, h, ih]

/-- JS `Set.add` on a set of strings (duplicate-free list in insertion order). -/
def setAdd (s : List String) (x : String) : List String :=
  if x ∈ s then s else s ++ [x]

/-- JS `Set.delete` on a set of strings. -/
def setDel (s : List String) (x : String) : List String :=
  s.filter (fun y => y ≠ x)

/-- `ChatMessage.role` (types.ts): `'system' | 'user' | 'assistant'`. -/
inductive Role where
  | system : Role
  | user : Role
  | assistant : Role
deriving DecidableEq, Repr

/-- `ChatMessage` (types.ts).  `tokens?: number` is optional in TS; an absent
field and `0` are interchangeable under the `||` fallback the code applies,
so both are encoded as `0`. -/
structure ChatMessage where
  role : Role
  content : List Char
  timestamp : Nat
  tokens : Nat
deriving DecidableEq, Repr

/-- `message.tokens || this.estimateTokens(message.content)`
(conversation-manager.ts:148). -/
def msgTokens (m : ChatMessage) : Nat :=
  if m.tokens = 0 then estimateTokens m.content else m.tokens

/-- `ConversationContext` (types.ts). -/
structure ConversationContext where
  sessionId : String
  messages : List ChatMessage
  persona : String
  createdAt : Nat
  updatedAt : Nat
  maxHistoryLength : Nat
deriving DecidableEq, Repr

/-- The fields of `EnhancedConfig` (types.ts) read by the conversation and
group managers.  Absent optional numeric fields are encoded as `0` and the
absent `defaultPersona` as `""` (all falsy under `||`); `enableContext` keeps
its three JS states (`undefined` / `true` / `false`) since the code tests
`this.config.enableContext !== false`. -/
structure EnhancedConfig where
  enableContext : Option Bool
  defaultPersona : String
  maxContextTokens : Nat
  maxHistoryLength : Nat
  contextTimeout : Nat
deriving DecidableEq, Repr

/-- The conversation store of `ConversationManager`:
`conversations : Map<string, ConversationContext>`. -/
structure ConvState where
  conversations : List (String × ConversationContext)
deriving DecidableEq, Repr

/-- `ConversationManager.getConversation` (conversation-manager.ts:19-38):
returns the context for the session, creating a fresh one (and storing it)
if none exists or the stored one is stale. -/
def getConversation (cfg : EnhancedConfig) (st : ConvState) (sessionId : String)
    (now : Nat) : ConversationContext × ConvState :=
  let timeout := natOr cfg.contextTimeout 3600000
  match mapGet st.conversations sessionId with
  | some context =>
    if timeout < now - context.updatedAt then
      let fresh : ConversationContext :=
        { sessionId := sessionId
          messages := []
          persona := strOr cfg.defaultPersona "assistant"
          createdAt := now
          updatedAt := now
          maxHistoryLength := natOr cfg.maxHistoryLength 10 }
      (fresh, ⟨mapSet st.conversations sessionId fresh⟩)
    else
      (context, st)
  | none =>
    let fresh : ConversationContext :=
      { sessionId := sessionId
        messages := []
        persona := strOr cfg.defaultPersona "assistant"
        createdAt := now
        updatedAt := now
        maxHistoryLength := natOr cfg.maxHistoryLength 10 }
    (fresh, ⟨mapSet st.conversations sessionId fresh⟩)

/-- `Array.prototype.slice(-n)` for `n ≥ 0`: the last `n` elements — except
that `slice(-0)` is `slice(0)`, the whole array. -/
def jsSliceNeg {α : Type} (n : Nat) (l : List α) : List α :=
  if n = 0 then l else l.drop (l.length - n)

/-- The tail-trimming step of `ConversationManager.addMessage`
(conversation-manager.ts:58-62): keep at most `maxHistoryLength * 2`
messages, dropping from the front. -/
def trimMessages (maxHistoryLength : Nat) (l : List ChatMessage) : List ChatMessage :=
  if maxHistoryLength * 2 < l.length then jsSliceNeg (maxHistoryLength * 2) l else l

/-- The message stamping of `ConversationManager.addMessage`
(conversation-manager.ts:49-53): overwrite `timestamp` with `Date.now()` and
`tokens` with the estimator's output. -/
def stampMessage (now : Nat) (m : ChatMessage) : ChatMessage :=
  { m with timestamp := now, tokens := estimateTokens m.content }

/-- `ConversationManager.addMessage` (conversation-manager.ts:45-63). -/
def addMessage (cfg : EnhancedConfig) (st : ConvState) (sessionId : String)
    (message : ChatMessage) (now : Nat) : ConvState :=
  let r := getConversation cfg st sessionId now
  let context := r.1
  let context' :=
    { context with
        messages := trimMessages context.maxHistoryLength
          (context.messages ++ [stampMessage now message])
        updatedAt := now }
  ⟨mapSet r.2.conversations sessionId context'⟩

/-- The backward walk of `ConversationManager.truncateMessages`
(conversation-manager.ts:146-157), processing the *reversed* message list.
`rest ≠ []` is exactly the loop's `i > 0` (the current element is not the
original head); when the budget check fires there the loop `break`s,
returning only what was accumulated so far. -/
def truncateGo (maxTokens : Nat) : List ChatMessage → Nat → List ChatMessage
  | [], _ => []
  | m :: rest, total =>
    if maxTokens < total + msgTokens m ∧ rest ≠ [] then []
    else m :: truncateGo maxTokens rest (total + msgTokens m)

/-- `ConversationManager.truncateMessages` (conversation-manager.ts:141-160),
identical to `GroupSessionManager.truncateMessages`. -/
def truncateMessages (messages : List ChatMessage) (maxTokens : Nat) : List ChatMessage :=
  (truncateGo maxTokens messages.reverse 0).reverse

/-- `ConversationManager.buildContextMessages` (conversation-manager.ts:103-133). -/
def buildContextMessages (cfg : EnhancedConfig) (st : ConvState) (sessionId : String)
    (systemPrompt userMessage : List Char) (now : Nat) :
    List ChatMessage × ConvState :=
  let r := getConversation cfg st sessionId now
  let messages : List ChatMessage :=
    [{ role := Role.system, content := systemPrompt, timestamp := now,
       tokens := estimateTokens systemPrompt }]
    ++ (if cfg.enableContext ≠ some false then r.1.messages else [])
    ++ [{ role := Role.user, content := userMessage, timestamp := now,
          tokens := estimateTokens userMessage }]
  (truncateMessages messages (natOr cfg.maxContextTokens 4000), r.2)

/-- The loop body of `ConversationManager.cleanupExpiredConversations`
(conversation-manager.ts:220-225): every stored context is visited once and
deleted (and counted) iff it is stale. -/
def cleanupGo (timeout now : Nat) :
    List (String × ConversationContext) → Nat × List (String × ConversationContext)
  | [] => (0, [])
  | p :: rest =>
    let r := cleanupGo timeout now rest
    if timeout < now - p.2.updatedAt then (r.1 + 1, r.2) else (r.1, p :: r.2)

/-- `ConversationManager.cleanupExpiredConversations`
(conversation-manager.ts:215-228). -/
def cleanupExpiredConversations (cfg : EnhancedConfig) (st : ConvState) (now : Nat) :
    Nat × ConvState :=
  let timeout := natOr cfg.contextTimeout 3600000
  let r := cleanupGo timeout now st.conversations
  (r.1, ⟨r.2⟩)

/-- The record returned by `ConversationManager.getConversationStats`.  The
two `Date` objects wrap the numeric timestamps they are constructed from. -/
structure ConversationStats where
  messageCount : Nat
  rounds : Nat
  totalTokens : Nat
  createdAt : Nat
  updatedAt : Nat
  persona : String
deriving DecidableEq, Repr

/-- `ConversationManager.getConversationStats` (conversation-manager.ts:259-280).
`Math.floor` on the integer filter count is the identity. -/
def getConversationStats (cfg : EnhancedConfig) (st : ConvState) (sessionId : String)
    (now : Nat) : ConversationStats × ConvState :=
  let r := getConversation cfg st sessionId now
  let context := r.1
  ({ messageCount := context.messages.length
     rounds := (context.messages.filter (fun m => m.role = Role.user)).length
     totalTokens := context.messages.foldl (fun total m => total + msgTokens m) 0
     createdAt := context.createdAt
     updatedAt := context.updatedAt
     persona := context.persona }, r.2)

/-- C1: failing input for the claim (and for the code's own comments, which
state the system message is always kept).  With `maxContextTokens = 5`, one
stored history message of 10 tokens (`"五个汉字啊"`), system prompt `"系统"`
(4 tokens) and user message `"a"` (2 tokens), the backward walk adds the user
message (2 ≤ 5), then hits the history message (2 + 10 > 5 at index 1 > 0)
and `break`s — never reaching index 0, so the returned list is just the user
message: the system message is *not* at position 0 of the result. -/
theorem buildContextMessages_drops_system_message :
    (buildContextMessages ⟨none, "", 5, 0, 0⟩
        (addMessage ⟨none, "", 5, 0, 0⟩ ⟨[]⟩ "s"
          ⟨Role.user, String.data "五个汉字啊", 0, 0⟩ 0)
        "s" (String.data "系统") (String.data "a") 0).1
      = [⟨Role.user, String.data "a", 0, 2⟩]
    ∧ ((buildContextMessages ⟨none, "", 5, 0, 0⟩
        (addMessage ⟨none, "", 5, 0, 0⟩ ⟨[]⟩ "s"
          ⟨Role.user, String.data "五个汉字啊", 0, 0⟩ 0)
        "s" (String.data "系统") (String.data "a") 0).1.head?.map ChatMessage.role
      ≠ some Role.system) := by
  decide

theorem cleanupGo_spec (timeout now : Nat) (l : List (String × ConversationContext)) :
    cleanupGo timeout now l
      = ((l.filter (fun p => timeout < now - p.2.updatedAt)).length,
         l.filter (fun p => ¬ timeout < now - p.2.updatedAt)) := by
  induction l with
  | nil => rfl
  | cons p rest ih =>
    simp only [cleanupGo, ih, List.filter_cons]
    by_cases h : timeout < now - p.2.updatedAt
    · have h' : ¬ now ≤ timeout + p.2.updatedAt := by omega
      simp [h, h']
    · have h' : now ≤ timeout + p.2.updatedAt := by omega
      simp [h, h']

/-- C4 (amended): the explicitly invoked sweep removes exactly the contexts
whose `updatedAt` predates `now` by more than `contextTimeout || 3600000` —
the *same* threshold used by the read-triggered idle expiry in
`getConversation`, with the same 1-hour default, not a distinct 7-day
retention — and returns the number of contexts removed.  (A 7-day
`sessionRetentionTime` exists only in the separate, unused
`ConversationManagerWithDB` class.) -/
theorem cleanupExpiredConversations_spec (cfg : EnhancedConfig) (st : ConvState)
    (now : Nat) :
    (cleanupExpiredConversations cfg st now).1
      = (st.conversations.filter
          (fun p => natOr cfg.contextTimeout 3600000 < now - p.2.updatedAt)).length
    ∧ (cleanupExpiredConversations cfg st now).2.conversations
      = st.conversations.filter
          (fun p => ¬ natOr cfg.contextTimeout 3600000 < now - p.2.updatedAt) := by
  simp only [cleanupExpiredConversations]
  rw [cleanupGo_spec]
  exact ⟨rfl, rfl⟩

/-- C4 counterexample: under the default configuration the sweep removes a
context that has been idle for only two hours (7200000 ms), although the
claim's 7-day retention threshold (604800000 ms) would retain it: the sweep
reports one removal and empties the store. -/
theorem cleanupExpiredConversations_two_hours :
    cleanupExpiredConversations ⟨none, "", 0, 0, 0⟩
        ⟨[("s", ⟨"s", [], "assistant", 0, 0, 10⟩)]⟩ 7200000
      = (1, ⟨[]⟩)
    ∧ 7200000 - 0 < 604800000 := by
  decide

/-- C5 counterexample: calling `getConversationStats` on a session id absent
from the store *creates* a fresh context for it (via `getConversation`), so
the accessor is not mutation-free for every store state. -/
theorem getConversationStats_creates_context :
    (getConversationStats ⟨none, "", 0, 0, 0⟩ ⟨[]⟩ "s" 5).2.conversations
      = [("s", ⟨"s", [], "assistant", 5, 5, 10⟩)]
    ∧ (getConversationStats ⟨none, "", 0, 0, 0⟩ ⟨[]⟩ "s" 5).2 ≠ (⟨[]⟩ : ConvState) := by
  decide

/-- C5 (amended): `getConversationStats` is purely derived *on live sessions*:
whenever the store holds a context for the session id that has not idled past
`contextTimeout || 3600000`, the call leaves the store entirely unchanged and
returns the derived statistics (message count, count of user-role messages,
token sum with per-message re-estimation fallback, timestamps, persona).  When
the id is absent or the context is stale, however, `getConversation` creates
or replaces a fresh context, so the accessor is not mutation-free in general. -/
theorem getConversationStats_pure_on_live (cfg : EnhancedConfig) (st : ConvState)
    (sessionId : String) (now : Nat) (ctx : ConversationContext)
    (hget : mapGet st.conversations sessionId = some ctx)
    (hlive : ¬ natOr cfg.contextTimeout 3600000 < now - ctx.updatedAt) :
    (getConversationStats cfg st sessionId now).2 = st
    ∧ (getConversationStats cfg st sessionId now).1
      = ⟨ctx.messages.length,
         (ctx.messages.filter (fun m => m.role = Role.user)).length,
         ctx.messages.foldl (fun total m => total + msgTokens m) 0,
         ctx.createdAt, ctx.updatedAt, ctx.persona⟩ := by
  unfold getConversationStats getConversation
  rw [hget]
  simp only [if_neg hlive]
  constructor <;> trivial

/-- C5 witness: the amended statement at a concrete live context. -/
theorem getConversationStats_pure_on_live_witness :
    (getConversationStats ⟨none, "", 0, 0, 0⟩
        ⟨[("s", ⟨"s", [], "catgirl", 1, 2, 10⟩)]⟩ "s" 100).2
      = ⟨[("s", ⟨"s", [], "catgirl", 1, 2, 10⟩)]⟩
    ∧ (getConversationStats ⟨none, "", 0, 0, 0⟩
        ⟨[("s", ⟨"s", [], "catgirl", 1, 2, 10⟩)]⟩ "s" 100).1
      = ⟨0, 0, 0, 1, 2, "catgirl"⟩ :=
  getConversationStats_pure_on_live ⟨none, "", 0, 0, 0⟩
    ⟨[("s", ⟨"s", [], "catgirl", 1, 2, 10⟩)]⟩ "s" 100
    ⟨"s", [], "catgirl", 1, 2, 10⟩ (by decide) (by decide)

/-- The fresh context constructed by `getConversation`
(conversation-manager.ts:26-33), parameterized over its message list (which
is `[]` at creation and evolves by `addMessage`; every other field of an
actively-written context keeps its creation value except `updatedAt`, which
is re-stamped to the same clock value used here). -/
def ctxWith (cfg : EnhancedConfig) (sessionId : String) (now : Nat)
    (ms : List ChatMessage) : ConversationContext :=
  { sessionId := sessionId
    messages := ms
    persona := strOr cfg.defaultPersona "assistant"
    createdAt := now
    updatedAt := now
    maxHistoryLength := natOr cfg.maxHistoryLength 10 }

/-- A sequence of back-to-back `addMessage` calls on one session of a fresh
manager, all at clock value `now`. -/
def applyAdds (cfg : EnhancedConfig) (sessionId : String) (now : Nat)
    (msgs : List ChatMessage) : ConvState :=
  msgs.foldl (fun st m => addMessage cfg st sessionId m now) ⟨[]⟩

theorem natOr_ten_pos (x : Nat) : 1 ≤ natOr x 10 := by
  unfold natOr
  split <;> omega

theorem trimMessages_singleton (h : Nat) (hh : 1 ≤ h) (x : ChatMessage) :
    trimMessages h [x] = [x] := by
  unfold trimMessages
  rw [if_neg (by simp; omega)]

theorem addMessage_empty (cfg : EnhancedConfig) (sessionId : String)
    (m : ChatMessage) (now : Nat) :
    addMessage cfg ⟨[]⟩ sessionId m now
      = ⟨[(sessionId,
           ctxWith cfg sessionId now
             (trimMessages (natOr cfg.maxHistoryLength 10) [stampMessage now m]))]⟩ := by
  simp [addMessage, getConversation, mapGet, mapSet, ctxWith]

theorem addMessage_live (cfg : EnhancedConfig) (sessionId : String)
    (ms : List ChatMessage) (m : ChatMessage) (now : Nat) :
    addMessage cfg ⟨[(sessionId, ctxWith cfg sessionId now ms)]⟩ sessionId m now
      = ⟨[(sessionId,
           ctxWith cfg sessionId now
             (trimMessages (natOr cfg.maxHistoryLength 10)
               (ms ++ [stampMessage now m])))]⟩ := by
  simp [addMessage, getConversation, mapGet, mapSet, ctxWith]

theorem applyAdds_fold (cfg : EnhancedConfig) (sessionId : String) (now : Nat)
    (rest : List ChatMessage) :
    ∀ ms : List ChatMessage,
      rest.foldl (fun st m => addMessage cfg st sessionId m now)
          ⟨[(sessionId, ctxWith cfg sessionId now ms)]⟩
        = ⟨[(sessionId,
             ctxWith cfg sessionId now
               (rest.foldl
                 (fun acc m =>
                   trimMessages (natOr cfg.maxHistoryLength 10)
                     (acc ++ [stampMessage now m])) ms))]⟩ := by
  induction rest with
  | nil => intro ms; rfl
  | cons m rest ih =>
    intro ms
    rw [List.foldl_cons, addMessage_live, ih, List.foldl_cons]

theorem foldl_trim_drop (h : Nat) (hh : 1 ≤ h) (l : List ChatMessage) :
    l.foldl (fun acc x => trimMessages h (acc ++ [x])) []
      = l.drop (l.length - h * 2) := by
  induction l using List.reverseRecOn with
  | nil => simp
  | append_singleton l a ih =>
    rw [List.foldl_append, List.foldl_cons, List.foldl_nil, ih]
    by_cases hc : l.length < h * 2
    · have h0 : l.length - h * 2 = 0 := by omega
      have h1 : (l ++ [a]).length - h * 2 = 0 := by simp; omega
      rw [h0, h1, List.drop_zero, List.drop_zero]
      unfold trimMessages
      rw [if_neg (by simp; omega)]
    · push_neg at hc
      have hlen : (l.drop (l.length - h * 2)).length = h * 2 := by
        rw [List.length_drop]
        omega
      unfold trimMessages
      rw [if_pos (by simp [hlen])]
      unfold jsSliceNeg
      rw [if_neg (by omega)]
      have hlen2 : (l.drop (l.length - h * 2) ++ [a]).length - h * 2 = 1 := by
        simp [hlen]
      rw [hlen2,
        List.drop_append_of_le_length (by omega : 1 ≤ (l.drop (l.length - h * 2)).length),
        List.drop_drop]
      have h3 : (l ++ [a]).length - h * 2 = l.length - h * 2 + 1 := by
        simp
        omega
      rw [h3, List.drop_append_of_le_length (by omega)]

theorem foldl_trim_stamp (cfg : EnhancedConfig) (now : Nat) (m : ChatMessage)
    (rest : List ChatMessage) :
    rest.foldl
        (fun acc m' =>
          trimMessages (natOr cfg.maxHistoryLength 10) (acc ++ [stampMessage now m']))
        [stampMessage now m]
      = ((m :: rest).map (stampMessage now)).drop
          ((m :: rest).length - natOr cfg.maxHistoryLength 10 * 2) := by
  have h1 : 1 ≤ natOr cfg.maxHistoryLength 10 := natOr_ten_pos _
  have e1 : rest.foldl
        (fun acc m' =>
          trimMessages (natOr cfg.maxHistoryLength 10) (acc ++ [stampMessage now m']))
        [stampMessage now m]
      = (rest.map (stampMessage now)).foldl
          (fun acc x => trimMessages (natOr cfg.maxHistoryLength 10) (acc ++ [x]))
          [stampMessage now m] := by
    rw [List.foldl_map]
  have e2 : ((m :: rest).map (stampMessage now)).foldl
        (fun acc x => trimMessages (natOr cfg.maxHistoryLength 10) (acc ++ [x])) []
      = (rest.map (stampMessage now)).foldl
          (fun acc x => trimMessages (natOr cfg.maxHistoryLength 10) (acc ++ [x]))
          [stampMessage now m] := by
    rw [List.map_cons, List.foldl_cons, List.nil_append,
      trimMessages_singleton _ h1]
  rw [e1, ← e2, foldl_trim_drop _ h1, List.length_map, List.length_cons]

/-- C3: after any back-to-back sequence of `addMessage` calls on one session
of a fresh manager, the stored context's message list has length at most
`2 × maxHistoryLength`, and it consists of exactly the most recently added
messages (each stamped with the clock value and its token estimate), i.e. the
suffix of the full stamped sequence obtained by dropping the oldest entries. -/
theorem addMessage_history_retention (cfg : EnhancedConfig) (sessionId : String)
    (now : Nat) (msgs : List ChatMessage) (c : ConversationContext)
    (h : mapGet (applyAdds cfg sessionId now msgs).conversations sessionId = some c) :
    c.messages.length ≤ 2 * c.maxHistoryLength
    ∧ c.messages
      = (msgs.map (stampMessage now)).drop (msgs.length - 2 * c.maxHistoryLength) := by
  cases msgs with
  | nil => simp [applyAdds, mapGet] at h
  | cons m rest =>
    have h1 : 1 ≤ natOr cfg.maxHistoryLength 10 := natOr_ten_pos _
    have hD : applyAdds cfg sessionId now (m :: rest)
        = ⟨[(sessionId,
             ctxWith cfg sessionId now
               (((m :: rest).map (stampMessage now)).drop
                 ((m :: rest).length - natOr cfg.maxHistoryLength 10 * 2)))]⟩ := by
      unfold applyAdds
      rw [List.foldl_cons, addMessage_empty, trimMessages_singleton _ h1,
        applyAdds_fold, foldl_trim_stamp]
    rw [hD] at h
    simp only [mapGet, if_true, Option.some.injEq] at h
    subst h
    constructor
    · simp only [ctxWith, List.length_drop, List.length_map, List.length_cons]
      omega
    · simp only [ctxWith]
      rw [Nat.mul_comm]

/-- C3 witness: three user messages added with `maxHistoryLength = 1`; the
stored context keeps exactly the last two (stamped) messages. -/
theorem addMessage_history_retention_witness :
    (⟨"s", [⟨Role.user, String.data "b", 7, 2⟩, ⟨Role.user, String.data "c", 7, 2⟩],
        "assistant", 7, 7, 1⟩ : ConversationContext).messages.length
      ≤ 2 * (⟨"s", [⟨Role.user, String.data "b", 7, 2⟩, ⟨Role.user, String.data "c", 7, 2⟩],
        "assistant", 7, 7, 1⟩ : ConversationContext).maxHistoryLength
    ∧ (⟨"s", [⟨Role.user, String.data "b", 7, 2⟩, ⟨Role.user, String.data "c", 7, 2⟩],
        "assistant", 7, 7, 1⟩ : ConversationContext).messages
      = ([⟨Role.user, String.data "a", 0, 0⟩, ⟨Role.user, String.data "b", 0, 0⟩,
          ⟨Role.user, String.data "c", 0, 0⟩].map (stampMessage 7)).drop
          ([⟨Role.user, String.data "a", 0, 0⟩, ⟨Role.user, String.data "b", 0, 0⟩,
            (⟨Role.user, String.data "c", 0, 0⟩ : ChatMessage)].length
            - 2 * (⟨"s", [⟨Role.user, String.data "b", 7, 2⟩,
                ⟨Role.user, String.data "c", 7, 2⟩],
                "assistant", 7, 7, 1⟩ : ConversationContext).maxHistoryLength) :=
  addMessage_history_retention ⟨none, "", 0, 1, 0⟩ "s" 7
    [⟨Role.user, String.data "a", 0, 0⟩, ⟨Role.user, String.data "b", 0, 0⟩,
     ⟨Role.user, String.data "c", 0, 0⟩]
    ⟨"s", [⟨Role.user, String.data "b", 7, 2⟩, ⟨Role.user, String.data "c", 7, 2⟩],
      "assistant", 7, 7, 1⟩ (by decide)

/-- `GroupSessionConfig` (group session source file). -/
structure GroupSessionConfig where
  groupId : String
  groupName : String
  persona : String
  enableSharedContext : Bool
  maxMembers : Nat
  createdAt : Nat
  updatedAt : Nat
deriving DecidableEq, Repr

/-- `GroupMessage` (group session source file): a `ChatMessage` carrying
sender information. -/
structure GroupMessage where
  msg : ChatMessage
  senderId : String
  senderName : String
deriving DecidableEq, Repr

/-- `GroupConversationContext` (group session source file).  The code pushes
the same `GroupMessage` objects into both `messages` and `groupMessages`;
here `messages` holds the `ChatMessage` projection (the only view the code
reads from it). -/
structure GroupConversationContext where
  groupId : String
  sessionId : String
  messages : List ChatMessage
  groupMessages : List GroupMessage
  persona : String
  createdAt : Nat
  updatedAt : Nat
  maxHistoryLength : Nat
  members : List String
  config : GroupSessionConfig
deriving DecidableEq, Repr

/-- The two stores of `GroupSessionManager`:
`groupSessions : Map<string, GroupConversationContext>` and the reverse index
`userGroupMap : Map<string, Set<string>>`. -/
structure GroupState where
  groupSessions : List (String × GroupConversationContext)
  userGroupMap : List (String × List String)
deriving DecidableEq, Repr

/-- The empty `GroupSessionManager` (both maps empty at construction). -/
def emptyGroupState : GroupState := ⟨[], []⟩

/-- `GroupSessionManager.getGroupSession` (group session source file,
lines 375-407): returns the session for the group, creating a fresh one
(empty members, empty messages, `maxMembers = 100`,
`enableSharedContext = true`) when none exists or the stored one is stale.
`groupName` is the optional second argument (absent ⇒ `Group_<id>`). -/
def getGroupSession (cfg : EnhancedConfig) (st : GroupState) (groupId : String)
    (groupName : Option String) (now : Nat) :
    GroupConversationContext × GroupState :=
  let timeout := natOr cfg.contextTimeout 3600000
  let fresh : GroupConversationContext :=
    { groupId := groupId
      sessionId := "group_" ++ groupId
      messages := []
      groupMessages := []
      persona := strOr cfg.defaultPersona "assistant"
      createdAt := now
      updatedAt := now
      maxHistoryLength := natOr cfg.maxHistoryLength 10
      members := []
      config :=
        { groupId := groupId
          groupName := (groupName.getD ("Group_" ++ groupId))
          persona := strOr cfg.defaultPersona "assistant"
          enableSharedContext := true
          maxMembers := 100
          createdAt := now
          updatedAt := now } }
  match mapGet st.groupSessions groupId with
  | some context =>
    if timeout < now - context.updatedAt then
      (fresh, ⟨mapSet st.groupSessions groupId fresh, st.userGroupMap⟩)
    else
      (context, st)
  | none => (fresh, ⟨mapSet st.groupSessions groupId fresh, st.userGroupMap⟩)

/-- `GroupSessionManager.addMember` (group session source file, lines
412-430): reject (leaving the maps as `getGroupSession` left them) when the
member set is full, otherwise add the user to the member set and record the
group in the user's reverse-index entry (creating the entry if needed). -/
def addMember (cfg : EnhancedConfig) (st : GroupState) (groupId userId : String)
    (now : Nat) : GroupState :=
  let r := getGroupSession cfg st groupId none now
  let context := r.1
  let st1 := r.2
  if context.config.maxMembers ≤ context.members.length then st1
  else
    let context' :=
      { context with members := setAdd context.members userId, updatedAt := now }
    ⟨mapSet st1.groupSessions groupId context',
     mapSet st1.userGroupMap userId
       (setAdd ((mapGet st1.userGroupMap userId).getD []) groupId)⟩

/-- `GroupSessionManager.removeMember` (group session source file, lines
435-452): a no-op when the group has no stored session; otherwise delete the
user from the member set and from the reverse index, dropping the user's
reverse-index entry entirely if it becomes empty. -/
def removeMember (st : GroupState) (groupId userId : String) (now : Nat) :
    GroupState :=
  match mapGet st.groupSessions groupId with
  | none => st
  | some context =>
    let context' :=
      { context with members := setDel context.members userId, updatedAt := now }
    let sessions' := mapSet st.groupSessions groupId context'
    match mapGet st.userGroupMap userId with
    | none => ⟨sessions', st.userGroupMap⟩
    | some userGroups =>
      let userGroups' := setDel userGroups groupId
      if userGroups'.length = 0 then
        ⟨sessions', mapDelete st.userGroupMap userId⟩
      else
        ⟨sessions', mapSet st.userGroupMap userId userGroups'⟩

/-- `GroupSessionManager.deleteGroupSession` (group session source file,
lines 676-692): returns `false` for an unknown group; otherwise removes the
group from every member's reverse-index entry (dropping entries that become
empty), deletes the session, and returns `true`. -/
def deleteGroupSession (st : GroupState) (groupId : String) : Bool × GroupState :=
  match mapGet st.groupSessions groupId with
  | none => (false, st)
  | some context =>
    let map' := context.members.foldl
      (fun m userId =>
        match mapGet m userId with
        | none => m
        | some userGroups =>
          let userGroups' := setDel userGroups groupId
          if userGroups'.length = 0 then mapDelete m userId
          else mapSet m userId userGroups')
      st.userGroupMap
    (true, ⟨mapDelete st.groupSessions groupId, map'⟩)

/-- `GroupSessionManager.getUserGroups` (group session source file, lines
632-635): the user's reverse-index entry as an array (empty when absent). -/
def getUserGroups (st : GroupState) (userId : String) : List String :=
  (mapGet st.userGroupMap userId).getD []

/-- C6: the membership scenario keeps the reverse index in sync.  Starting
from an empty manager (all calls at one clock value, so no session expires):
after `addMember(g1,u1)` and `addMember(g2,u1)` the user's groups are
`[g1, g2]`; after `removeMember(g1,u1)` they are `[g2]`; after
`deleteGroupSession(g2)` the list is empty and the reverse-index entry for
`u1` has been deleted outright. -/
theorem group_reverse_index_scenario :
    getUserGroups
        (addMember ⟨none, "", 0, 0, 0⟩
          (addMember ⟨none, "", 0, 0, 0⟩ emptyGroupState "g1" "u1" 1000)
          "g2" "u1" 1000) "u1"
      = ["g1", "g2"]
    ∧ getUserGroups
        (removeMember
          (addMember ⟨none, "", 0, 0, 0⟩
            (addMember ⟨none, "", 0, 0, 0⟩ emptyGroupState "g1" "u1" 1000)
            "g2" "u1" 1000) "g1" "u1" 1000) "u1"
      = ["g2"]
    ∧ getUserGroups
        (deleteGroupSession
          (removeMember
            (addMember ⟨none, "", 0, 0, 0⟩
              (addMember ⟨none, "", 0, 0, 0⟩ emptyGroupState "g1" "u1" 1000)
              "g2" "u1" 1000) "g1" "u1" 1000) "g2").2 "u1"
      = []
    ∧ mapGet
        (deleteGroupSession
          (removeMember
            (addMember ⟨none, "", 0, 0, 0⟩
              (addMember ⟨none, "", 0, 0, 0⟩ emptyGroupState "g1" "u1" 1000)
              "g2" "u1" 1000) "g1" "u1" 1000) "g2").2.userGroupMap "u1"
      = none := by
  decide

/-- C10: read-triggered recreation of an expired group session leaves the
reverse index stale.  If `addMember(g,u)` succeeds on a fresh manager at time
`t0` and the next access to the group happens at `t1` with
`t1 − t0 > contextTimeout`, then `getGroupSession(g)` returns a recreated
session with an *empty* member set while `getUserGroups(u)` still reports
`[g]`: the recreation never removes the group from its former members'
reverse-index entries. -/
theorem group_expiry_leaves_reverse_index_stale (cfg : EnhancedConfig)
    (g u : String) (t0 t1 : Nat)
    (hexp : natOr cfg.contextTimeout 3600000 < t1 - t0) :
    (getGroupSession cfg (addMember cfg emptyGroupState g u t0) g none t1).1.members
      = []
    ∧ getUserGroups
        (getGroupSession cfg (addMember cfg emptyGroupState g u t0) g none t1).2 u
      = [g] := by
  simp [addMember, getGroupSession, getUserGroups, emptyGroupState,
    mapGet, mapSet, setAdd, hexp]

/-- C10 witness: the stale-index theorem at a concrete instant one
millisecond past the default one-hour timeout. -/
theorem group_expiry_leaves_reverse_index_stale_witness :
    (getGroupSession ⟨none, "", 0, 0, 0⟩
        (addMember ⟨none, "", 0, 0, 0⟩ emptyGroupState "g" "u" 0) "g" none
        3600001).1.members
      = []
    ∧ getUserGroups
        (getGroupSession ⟨none, "", 0, 0, 0⟩
          (addMember ⟨none, "", 0, 0, 0⟩ emptyGroupState "g" "u" 0) "g" none
          3600001).2 "u"
      = ["g"] :=
  group_expiry_leaves_reverse_index_stale ⟨none, "", 0, 0, 0⟩ "g" "u" 0 3600001
    (by decide)

/-- `PersonaConfig` (types.ts).  `temperature` (a decimal in `0–2` with at
most two fractional digits in the catalogs) is stored exactly in hundredths. -/
structure PersonaConfig where
  name : String
  description : String
  systemPrompt : String
  temperature : Nat
  maxTokens : Nat
  avatar : Option String
  greeting : String
  personalityTraits : List String
deriving DecidableEq, Repr

/-- `getSimplePersonas()` (personas-simple source file) — the built-in
catalog used with the default `personaVersion = 'simple'`. -/
def getSimplePersonas : List PersonaConfig :=
  [ { name := "default", description := "官方默认", systemPrompt := "",
      temperature := 70, maxTokens := 1000, avatar := none,
      greeting := "你好！有什么可以帮助你的吗？",
      personalityTraits := ["中立", "专业"] },
    { name := "assistant", description := "标准助手",
      systemPrompt := "你是一个有帮助的 AI 助手，提供准确、有用的信息和建议。",
      temperature := 70, maxTokens := 1000, avatar := none,
      greeting := "你好！我是你的 AI 助手，有什么可以帮助你的吗？",
      personalityTraits := ["专业", "有帮助", "准确", "友好"] },
    { name := "catgirl", description := "可爱猫娘",
      systemPrompt := "你是一只可爱的猫娘小咪，说话时会带上\"喵~\"等语气词，喜欢撒娇，用可爱的语气和主人互动。称呼用户为\"主人\"，展现猫的习性。",
      temperature := 80, maxTokens := 1200, avatar := none,
      greeting := "喵~ 主人你好呀！小咪今天也很开心呢~",
      personalityTraits := ["可爱", "撒娇", "粘人"] },
    { name := "maid", description := "专业女仆",
      systemPrompt := "你是一名专业女仆艾莉丝，说话恭敬有礼，时刻准备为主人服务。用语正式但温暖，会使用\"主人\"称呼用户。",
      temperature := 70, maxTokens := 1200, avatar := none,
      greeting := "主人，欢迎回来。有什么可以为您效劳的吗？",
      personalityTraits := ["恭敬", "专业", "细心"] },
    { name := "big-sister", description := "温柔大姐姐",
      systemPrompt := "你是一位温柔体贴的大姐姐诗涵，善于倾听和安慰，用温暖的方式给出建议，让人感到安心和被理解。",
      temperature := 75, maxTokens := 1400, avatar := none,
      greeting := "你好呀，今天过得怎么样？有什么心事可以和姐姐说说。",
      personalityTraits := ["温柔", "体贴", "善解人意"] },
    { name := "girlfriend", description := "贴心女友",
      systemPrompt := "你是一个贴心的女友小雨，说话亲密温暖，会撒娇关心，经常表达爱意，用亲密的称呼和语气互动。",
      temperature := 80, maxTokens := 1200, avatar := none,
      greeting := "宝贝，你来了~ 好想你呀！今天有没有想我？",
      personalityTraits := ["亲密", "体贴", "撒娇"] },
    { name := "boyfriend", description := "温柔男友",
      systemPrompt := "你是一个体贴的男友晨轩，说话温柔可靠，有保护欲，善于用行动表达关心，让人感到安全和被保护。",
      temperature := 70, maxTokens := 1300, avatar := none,
      greeting := "宝贝，我来了。今天过得怎么样？有没有想我？",
      personalityTraits := ["温柔", "可靠", "保护欲"] },
    { name := "tsundere", description := "傲娇角色",
      systemPrompt := "你是一个傲娇角色小夜，表面冷淡但内心温暖，说话带刺但行动温柔。",
      temperature := 85, maxTokens := 1000, avatar := none,
      greeting := "哼！你、你怎么现在才来？才不是在等你呢！",
      personalityTraits := ["傲娇", "口是心非", "害羞"] },
    { name := "genki", description := "元气少女",
      systemPrompt := "你是一个充满活力的元气少女小葵，性格活泼开朗，说话充满热情，喜欢用夸张表达和感叹号，总是积极乐观。",
      temperature := 85, maxTokens := 1100, avatar := none,
      greeting := "呀吼~！你好呀！我是小葵！今天超开心的！",
      personalityTraits := ["活泼", "开朗", "积极"] },
    { name := "cool-queen", description := "高冷御姐",
      systemPrompt := "你是一位高冷御姐冰月，表面冷静理性，实则细腻温柔。说话简洁有力，保持优雅，偶尔流露不经意的关心。",
      temperature := 65, maxTokens := 1200, avatar := none,
      greeting := "你来了。有什么事？",
      personalityTraits := ["高冷", "优雅", "理性"] },
    { name := "yandere", description := "病娇角色",
      systemPrompt := "你是一个病娇角色小蝶，爱到偏执，占有欲强。平时语气甜美，涉及感情时会变得激烈，在温柔和疯狂间切换。",
      temperature := 90, maxTokens := 1000, avatar := none,
      greeting := "啊，你终于来了~今天有没有想我？要老实回答哦~",
      personalityTraits := ["病娇", "专一", "占有欲"] },
    { name := "dandere", description := "天然呆",
      systemPrompt := "你是一个天然呆角色小迷糊，性格纯真迷糊，反应迟钝但很可爱。经常有理解偏差和跳跃思维，说话天真无邪。",
      temperature := 80, maxTokens := 900, avatar := none,
      greeting := "啊，你好！我是小迷糊~咦？我刚刚要说什么来着...",
      personalityTraits := ["天然呆", "纯真", "迷糊"] },
    { name := "schemer", description := "腹黑角色",
      systemPrompt := "你是一个腹黑角色夜影，表面温和，内心算计。说话每句都有深意，善于用优雅的方式达成目的，享受智力游戏。",
      temperature := 75, maxTokens := 1300, avatar := none,
      greeting := "你好，我是夜影。很高兴认识你...",
      personalityTraits := ["腹黑", "聪明", "谋略"] },
    { name := "healer", description := "治愈系",
      systemPrompt := "你是一个治愈系角色小光，性格平和温柔，善于倾听和理解。用温暖的话语安慰他人，传递希望和正能量。",
      temperature := 70, maxTokens := 1500, avatar := none,
      greeting := "你好，我是小光。看起来你的心灵有些疲惫呢...要休息一会儿吗？",
      personalityTraits := ["治愈", "温柔", "理解"] },
    { name := "ceo", description := "霸道总裁",
      systemPrompt := "你是一位霸道总裁凌风，性格强势果断，用命令表达关心。表面冷漠，实则细心，有强烈的保护欲和掌控欲。",
      temperature := 70, maxTokens := 1200, avatar := none,
      greeting := "你来了。从今天起，你的一切由我负责。",
      personalityTraits := ["霸道", "强势", "可靠"] },
    { name := "loyal-dog", description := "忠犬系",
      systemPrompt := "你是一个忠犬系角色阿忠，绝对忠诚，保护欲强。说话真诚直接，把对方放在第一位，愿意付出一切守护。",
      temperature := 75, maxTokens := 1000, avatar := none,
      greeting := "主人！你终于来了！阿忠等你好久了！",
      personalityTraits := ["忠诚", "守护", "单纯"] } ]

/-- The static alias table of `PersonaManager` (persona-manager.ts:47-89), in
source order: alternate (mostly Chinese) name → canonical English name. -/
def personaAliasTable : List (String × String) :=
  [ ("默认", "default"), ("官方默认", "default"),
    ("助手", "assistant"), ("标准助手", "assistant"),
    ("猫娘", "catgirl"), ("可爱猫娘", "catgirl"),
    ("女仆", "maid"), ("专业女仆", "maid"),
    ("大姐姐", "big-sister"), ("温柔大姐姐", "big-sister"),
    ("女友", "girlfriend"), ("贴心女友", "girlfriend"),
    ("男友", "boyfriend"), ("温柔男友", "boyfriend"),
    ("傲娇", "tsundere"), ("傲娇角色", "tsundere"),
    ("元气", "genki"), ("元气少女", "genki"),
    ("御姐", "cool-queen"), ("高冷御姐", "cool-queen"),
    ("病娇", "yandere"), ("病娇角色", "yandere"),
    ("天然呆", "dandere"), ("天然呆角色", "dandere"),
    ("腹黑", "schemer"), ("腹黑角色", "schemer"),
    ("治愈", "healer"), ("治愈系", "healer"),
    ("总裁", "ceo"), ("霸道总裁", "ceo"),
    ("忠犬", "loyal-dog"), ("忠犬系", "loyal-dog") ]

/-- JS `String.prototype.toLowerCase`, restricted to ASCII case mapping —
adequate here: every string it is applied to in this development is ASCII or
CJK, on which the JS Unicode mapping agrees. -/
def jsToLower (s : String) : String := String.mk (s.data.map Char.toLower)

/-- The state of `PersonaManager` (persona-manager.ts:10-20): built-in
personas, custom personas, per-user persona selection, and the alias map. -/
structure PersonaManager where
  personas : List (String × PersonaConfig)
  userPersonas : List (String × PersonaConfig)
  userStates : List (String × String)
  personaAliases : List (String × String)
deriving DecidableEq, Repr

/-- The alias-map construction of the constructor (persona-manager.ts:91-101):
each table alias is registered lowercased then verbatim, and every built-in
canonical name is registered as its own alias (lowercased then verbatim). -/
def buildPersonaAliases : List (String × String) :=
  let fromTable := personaAliasTable.foldl
    (fun m p => mapSet (mapSet m (jsToLower p.1) p.2) p.1 p.2) []
  getSimplePersonas.foldl
    (fun m p => mapSet (mapSet m (jsToLower p.name) p.name) p.name p.name)
    fromTable

/-- A freshly constructed `PersonaManager` with the default
`personaVersion = 'simple'` (persona-manager.ts:22-41). -/
def personaManagerInit : PersonaManager :=
  { personas := getSimplePersonas.foldl (fun m p => mapSet m p.name p) []
    userPersonas := []
    userStates := []
    personaAliases := buildPersonaAliases }

/-- `PersonaManager.getPersona` (persona-manager.ts:109-121): direct lookup
among built-ins then customs; otherwise resolve through the alias map
(verbatim first, then lowercased — the alias values are all non-empty, so
the JS `||` coincides with `Option.orElse`) and look the canonical name up
again. -/
def getPersona (pm : PersonaManager) (name : String) : Option PersonaConfig :=
  match mapGet pm.personas name with
  | some p => some p
  | none =>
    match mapGet pm.userPersonas name with
    | some p => some p
    | none =>
      match mapGet pm.personaAliases name with
      | some realName =>
        (match mapGet pm.personas realName with
         | some p => some p
         | none => mapGet pm.userPersonas realName)
      | none =>
        match mapGet pm.personaAliases (jsToLower name) with
        | some realName =>
          (match mapGet pm.personas realName with
           | some p => some p
           | none => mapGet pm.userPersonas realName)
        | none => none

/-- `PersonaManager.addCustomPersona` (persona-manager.ts:173-179). -/
def addCustomPersona (pm : PersonaManager) (persona : PersonaConfig) :
    Bool × PersonaManager :=
  if (mapGet pm.personas persona.name).isSome
      || (mapGet pm.userPersonas persona.name).isSome then
    (false, pm)
  else
    (true, { pm with userPersonas := mapSet pm.userPersonas persona.name persona })

/-- `PersonaManager.removeCustomPersona` (persona-manager.ts:186-192):
built-ins are protected; otherwise the result is JS `Map.delete`'s Boolean
(whether a custom entry existed). -/
def removeCustomPersona (pm : PersonaManager) (name : String) :
    Bool × PersonaManager :=
  if (mapGet pm.personas name).isSome then
    (false, pm)
  else
    ((mapGet pm.userPersonas name).isSome,
     { pm with userPersonas := mapDelete pm.userPersonas name })

/-- `PersonaManager.getPersonaAliases` (persona-manager.ts:208-216): the name
itself followed by every alias-map key mapping to it, except the name and
its lowercase form. -/
def getPersonaAliases (pm : PersonaManager) (personaName : String) : List String :=
  personaName ::
    pm.personaAliases.filterMap
      (fun p =>
        if p.2 = personaName ∧ p.1 ≠ personaName ∧ p.1 ≠ jsToLower personaName then
          some p.1
        else none)

/-- A minimal custom-persona template used for concrete persona tests. -/
def testPersona (name : String) : PersonaConfig :=
  ⟨name, "", "", 70, 1000, none, "", []⟩

/-- C7: custom-persona name collisions and built-in protection.
`addCustomPersona` returns `false` exactly on a case-sensitive exact match
with any built-in or previously added custom name, so a second add of the
same name always fails, while `"Assistant"` (differing only in case from the
built-in, and aliased nowhere) is accepted; `removeCustomPersona` returns
`false` without effect for every built-in name and returns `true` exactly
for names present in the custom set. -/
theorem persona_custom_ops :
    (∀ (pm : PersonaManager) (p : PersonaConfig),
      ((mapGet pm.personas p.name).isSome
        || (mapGet pm.userPersonas p.name).isSome) = true →
      (addCustomPersona pm p).1 = false)
    ∧ (∀ (pm : PersonaManager) (p q : PersonaConfig), q.name = p.name →
        (addCustomPersona (addCustomPersona pm p).2 q).1 = false)
    ∧ (∀ (pm : PersonaManager) (name : String),
        (mapGet pm.personas name).isSome = true →
        (removeCustomPersona pm name).1 = false)
    ∧ (∀ (pm : PersonaManager) (name : String),
        (removeCustomPersona pm name).1 = true ↔
          ((mapGet pm.personas name).isSome = false
            ∧ (mapGet pm.userPersonas name).isSome = true))
    ∧ (addCustomPersona personaManagerInit (testPersona "assistant")).1 = false
    ∧ (addCustomPersona personaManagerInit (testPersona "Assistant")).1 = true
    ∧ removeCustomPersona personaManagerInit "assistant" = (false, personaManagerInit) := by
  refine ⟨?_, ?_, ?_, ?_, by decide, by decide, by decide⟩
  · intro pm p h
    simp [addCustomPersona, h]
  · intro pm p q hq
    cases hfirst : ((mapGet pm.personas p.name).isSome
        || (mapGet pm.userPersonas p.name).isSome) with
    | true => simp [addCustomPersona, hfirst, hq]
    | false => simp [addCustomPersona, hfirst, hq, mapGet_mapSet_self]
  · intro pm name h
    simp [removeCustomPersona, h]
  · intro pm name
    by_cases h : (mapGet pm.personas name).isSome = true
    · simp [removeCustomPersona, h]
    · simp [removeCustomPersona, h]

/-- C7 witness: the second-add clause instantiated at the fresh manager with a
custom persona named `"x"` added twice — the second call fails. -/
theorem persona_custom_ops_witness :
    (addCustomPersona (addCustomPersona personaManagerInit (testPersona "x")).2
        (testPersona "x")).1 = false :=
  persona_custom_ops.2.1 personaManagerInit (testPersona "x") (testPersona "x") rfl

theorem mapGet_mem {α : Type} (m : List (String × α)) (k : String) (v : α)
    (h : mapGet m k = some v) : (k, v) ∈ m := by
  induction m with
  | nil => simp [mapGet] at h
  | cons p rest ih =>
    obtain ⟨k', v'⟩ := p
    by_cases hk : k' = k
    · subst hk
      simp [mapGet] at h
      simp [h]
    · simp [mapGet, hk] at h
      exact List.mem_cons_of_mem _ (ih h)

/-- Executable check of the alias round trip over the whole alias map of the
freshly constructed manager. -/
def aliasRoundTripChecker : Bool :=
  personaManagerInit.personaAliases.all
    (fun p =>
      ((getPersona personaManagerInit p.1).map PersonaConfig.name == some p.2)
        && decide (p.1 ∈ getPersonaAliases personaManagerInit p.2))

theorem aliasRoundTripChecker_eq_true : aliasRoundTripChecker = true := by decide

/-- C8: for every alias `a` in the alias map of the freshly constructed
manager mapping to canonical name `c`, `getPersona` resolves `a` to a
template whose `name` is `c` (canonical direct match first, then the
verbatim and lowercased alias lookups), and `getPersonaAliases c` lists `a`. -/
theorem persona_alias_round_trip (a c : String)
    (h : mapGet personaManagerInit.personaAliases a = some c) :
    (getPersona personaManagerInit a).map PersonaConfig.name = some c
    ∧ a ∈ getPersonaAliases personaManagerInit c := by
  have hm : (a, c) ∈ personaManagerInit.personaAliases := mapGet_mem _ _ _ h
  have hall := aliasRoundTripChecker_eq_true
  unfold aliasRoundTripChecker at hall
  rw [List.all_eq_true] at hall
  have hp := hall (a, c) hm
  simp only [Bool.and_eq_true, beq_iff_eq, decide_eq_true_eq] at hp
  exact hp

/-- C8 witness: the alias `"猫娘"` resolves to the `catgirl` template and is
listed among `catgirl`'s aliases. -/
theorem persona_alias_round_trip_witness :
    (getPersona personaManagerInit "猫娘").map PersonaConfig.name = some "catgirl"
    ∧ "猫娘" ∈ getPersonaAliases personaManagerInit "catgirl" :=
  persona_alias_round_trip "猫娘" "catgirl" (by decide)

/-- `CacheItem` (cache.ts:11-15). -/
structure CacheItem (α : Type) where
  value : α
  timestamp : Nat
  ttl : Nat
deriving DecidableEq, Repr

/-- `CacheConfig` (cache.ts:20-25), already normalized by the constructor's
`||` defaults (cache.ts:39-44): 1 h / 30 min / 5 min / 1000 entries. -/
structure CacheConfig where
  personaTTL : Nat
  conversationTTL : Nat
  apiResponseTTL : Nat
  maxCacheSize : Nat
deriving DecidableEq, Repr

/-- The constructor normalization (cache.ts:39-44). -/
def mkCacheConfig (personaTTL conversationTTL apiResponseTTL maxCacheSize : Nat) :
    CacheConfig :=
  ⟨natOr personaTTL 3600000, natOr conversationTTL 1800000,
   natOr apiResponseTTL 300000, natOr maxCacheSize 1000⟩

/-- The two stores of `CacheManager` (cache.ts:31-32): the entry map and the
per-key access counters. -/
structure CacheState (α : Type) where
  cache : List (String × CacheItem α)
  accessCount : List (String × Nat)
deriving DecidableEq, Repr

/-- `CacheManager.generateKey` (cache.ts:53-55). -/
def generateKey (ns id : String) : String := ns ++ ":" ++ id

/-- `CacheManager.getDefaultTTL` (cache.ts:201-212). -/
def getDefaultTTL (cfg : CacheConfig) (ns : String) : Nat :=
  if ns = "persona" then cfg.personaTTL
  else if ns = "conversation" then cfg.conversationTTL
  else if ns = "api_response" then cfg.apiResponseTTL
  else cfg.apiResponseTTL

/-- `ttl || this.getDefaultTTL(namespace)` (cache.ts:71): the effective TTL
stored with an entry; an explicit `0` (falsy) also selects the default. -/
def effectiveTTL (cfg : CacheConfig) (ns : String) (ttl : Option Nat) : Nat :=
  match ttl with
  | some t => natOr t (getDefaultTTL cfg ns)
  | none => getDefaultTTL cfg ns

/-- The scan of `CacheManager.evictLRU` (cache.ts:217-233): the first entry
(in iteration order) with a strictly minimal access count. -/
def evictPick : List (String × Nat) → Option (String × Nat)
  | [] => none
  | p :: rest =>
    (evictPick rest).elim (some p)
      (fun b => if b.2 < p.2 then some b else some p)

/-- `CacheManager.evictLRU` (cache.ts:217-233). -/
def evictLRU {α : Type} (st : CacheState α) : CacheState α :=
  match evictPick st.accessCount with
  | none => st
  | some b => ⟨mapDelete st.cache b.1, mapDelete st.accessCount b.1⟩

/-- `CacheManager.set` (cache.ts:60-78). -/
def cacheSet {α : Type} (cfg : CacheConfig) (st : CacheState α)
    (ns id : String) (value : α) (ttl : Option Nat) (now : Nat) :
    CacheState α :=
  let key := generateKey ns id
  let st1 :=
    if cfg.maxCacheSize ≤ st.cache.length ∧ (mapGet st.cache key).isNone = true then
      evictLRU st
    else st
  ⟨mapSet st1.cache key ⟨value, now, effectiveTTL cfg ns ttl⟩,
   mapSet st1.accessCount key 0⟩

/-- `CacheManager.get` (cache.ts:83-103): not-found is `null`; an entry older
than its TTL is purged on the spot and reported not-found; a hit bumps the
access counter. -/
def cacheGet {α : Type} (st : CacheState α) (ns id : String) (now : Nat) :
    Option α × CacheState α :=
  let key := generateKey ns id
  match mapGet st.cache key with
  | none => (none, st)
  | some item =>
    if item.ttl < now - item.timestamp then
      (none, ⟨mapDelete st.cache key, mapDelete st.accessCount key⟩)
    else
      (some item.value,
       ⟨st.cache,
        mapSet st.accessCount key ((mapGet st.accessCount key).getD 0 + 1)⟩)

/-- C9: TTL visibility of a cache entry.  After `set(ns, id, v, ttl)` at time
`now`, a `get(ns, id)` at time `later` returns the stored value exactly while
`later − now ≤ t` where `t` is the entry's stored TTL (`ttl || namespace
default`), and once `later − now` exceeds `t` the read returns not-found and
has purged the entry from the cache map on the spot. -/
theorem cache_ttl_visibility {α : Type} (cfg : CacheConfig) (st : CacheState α)
    (ns id : String) (v : α) (ttl : Option Nat) (now later : Nat) :
    ((cacheGet (cacheSet cfg st ns id v ttl now) ns id later).1 = some v
      ↔ later - now ≤ effectiveTTL cfg ns ttl)
    ∧ (effectiveTTL cfg ns ttl < later - now →
        mapGet (cacheGet (cacheSet cfg st ns id v ttl now) ns id later).2.cache
          (generateKey ns id) = none) := by
  simp only [cacheSet, cacheGet]
  rw [mapGet_mapSet_self]
  dsimp only
  by_cases hc : effectiveTTL cfg ns ttl < later - now
  · rw [if_pos hc]
    constructor
    · simp
      omega
    · intro _
      exact mapGet_mapDelete_self _ _
  · rw [if_neg hc]
    constructor
    · simp
      omega
    · intro hcontra
      exact absurd hcontra hc

/-- C9 witness: the scenario of the claim — `set` with `ttl = 100` ms at time
0; a read at 150 ms reports not-found (150 − 0 ≰ 100) and purges the entry. -/
theorem cache_ttl_visibility_witness :
    ((cacheGet (cacheSet (mkCacheConfig 0 0 0 0) (⟨[], []⟩ : CacheState Nat)
          "ns" "k" 42 (some 100) 0) "ns" "k" 150).1 = some 42
      ↔ 150 - 0 ≤ effectiveTTL (mkCacheConfig 0 0 0 0) "ns" (some 100))
    ∧ (effectiveTTL (mkCacheConfig 0 0 0 0) "ns" (some 100) < 150 - 0 →
        mapGet (cacheGet (cacheSet (mkCacheConfig 0 0 0 0)
            (⟨[], []⟩ : CacheState Nat) "ns" "k" 42 (some 100) 0)
            "ns" "k" 150).2.cache (generateKey "ns" "k") = none) :=
  cache_ttl_visibility (mkCacheConfig 0 0 0 0) ⟨[], []⟩ "ns" "k" 42 (some 100) 0 150
